import Mathlib

/-!
Verification of the syslog adapter (`adapters/syslog/syslog.go`) of the
logspout repository.  The Go source is shallowly embedded: strings are
`List Char` (Go strings are byte slices; all relevant literals are ASCII so
runes and chars coincide, and where the byte/rune distinction matters we
convert explicitly), byte buffers are `List Nat`, fallible Go functions
return `Option`/`Except`, and the package-global state (`retryCount`,
`tcpFraming`, `hostname`) is passed explicitly.  Definitions come first,
theorems afterwards.
-/

set_option autoImplicit false

namespace Logspout

/-! ## Definitions

### Retry policy (`retryExp`, syslog.go lines 256-271)

The Go loop keeps a counter `try` starting at 0; it invokes `fun()`, returns
`nil` on success, otherwise increments `try` and returns the error once
`try > tries`.  `retryExpFrom f idx remaining` models the loop where `idx`
invocations have already happened and `remaining = tries - idx`; the second
component of the result is the total number of invocations performed
(instrumentation; the Go function returns only the error). -/

def retryExpFrom {ε : Type} (f : Nat → Option ε) : Nat → Nat → Option ε × Nat
  | idx, remaining =>
    match f idx, remaining with
    | none, _ => (none, idx + 1)
    | some e, 0 => (some e, idx + 1)
    | some _, r + 1 => retryExpFrom f (idx + 1) r

/-- Model of `retryExp(fun, tries)`: first component is the returned error
(`none` = success), second component counts how many times `fun` was
invoked. -/
def retryExp {ε : Type} (f : Nat → Option ε) (tries : Nat) : Option ε × Nat :=
  retryExpFrom f 0 tries

/-! ### Priority mapping (`Message.Priority`, syslog.go lines 299-309) -/

/-- Facility `user` from `log/syslog` (8). -/
def LOG_USER : Nat := 8

/-- Facility `daemon` from `log/syslog` (24). -/
def LOG_DAEMON : Nat := 24

/-- Severity `info` from `log/syslog` (6). -/
def LOG_INFO : Nat := 6

/-- Severity `err` from `log/syslog` (3). -/
def LOG_ERR : Nat := 3

/-- Model of `Message.Priority`: a function of the record's source stream
tag alone, switching on `"stdout"` / `"stderr"` with a `daemon.info`
default. -/
def Priority (source : List Char) : Nat :=
  if source = "stdout".data then LOG_USER ||| LOG_INFO
  else if source = "stderr".data then LOG_USER ||| LOG_ERR
  else LOG_DAEMON ||| LOG_INFO

/-! ### Retry-count configuration (`setRetryCount`, syslog.go lines 49-56) -/

/-- Default retry budget (`defaultRetryCount`). -/
def defaultRetryCount : Nat := 10

/-- Digit test used by the `strconv.Atoi` model. -/
def isDigitChar (c : Char) : Bool := 48 ≤ c.toNat && c.toNat ≤ 57

/-- Decimal value of a digit string, most significant digit first. -/
def digitsToNat (ds : List Char) : Nat :=
  ds.foldl (fun a c => a * 10 + (c.toNat - 48)) 0

/-- Sign/digits split performed by `strconv.Atoi`. -/
def goAtoiSign (s : List Char) : Int × List Char :=
  match s with
  | [] => (1, [])
  | c :: r => if c = '+' then (1, r) else if c = '-' then (-1, r) else (1, s)

/-- Model of `strconv.Atoi` on a 64-bit platform: an optional sign followed
by at least one decimal digit, with the result required to fit in `int64`;
`none` models a non-nil error (syntax or range). -/
def goAtoi (s : List Char) : Option Int :=
  if (goAtoiSign s).2 = [] then none
  else if (goAtoiSign s).2.all isDigitChar then
    if -(2 ^ 63) ≤ (goAtoiSign s).1 * (digitsToNat (goAtoiSign s).2 : Int) ∧
        (goAtoiSign s).1 * (digitsToNat (goAtoiSign s).2 : Int) ≤ 2 ^ 63 - 1 then
      some ((goAtoiSign s).1 * (digitsToNat (goAtoiSign s).2 : Int))
    else none
  else none

/-- Model of `setRetryCount`: parse the `RETRY_COUNT` environment value with
`strconv.Atoi`; on error store the default 10, otherwise store `uint(count)`
(the Go `int` reinterpreted as a 64-bit unsigned integer, i.e. the value
modulo `2 ^ 64`). -/
def setRetryCount (s : List Char) : Nat :=
  match goAtoi s with
  | none => defaultRetryCount
  | some n => (n % (2 ^ 64 : Int)).toNat

/-! ### Connections and write errors

`isTCPConnecion` (sic, source spelling) reports whether the owned
connection is stream-oriented (`*net.TCPConn` or `*tls.Conn`); the only
other dynamic type the stream loop distinguishes is `*net.UDPConn`. -/

inductive ConnKind where
  | tcp
  | tls
  | udp
  | other
deriving DecidableEq

/-- Model of `isTCPConnecion` (syslog.go lines 273-282). -/
def isTCPConnecion : ConnKind → Bool
  | .tcp => true
  | .tls => true
  | _ => false

/-- Model of a Go write error as inspected by `Adapter.retry`:
whether the dynamic type is `*net.OpError`, the results of its
`Temporary()` and `Timeout()` methods, and the `Error()` string of its
wrapped inner error (`opError.Err`). -/
structure GoError where
  isOpError : Bool
  temporary : Bool
  timeout : Bool
  errStr : List Char
deriving DecidableEq

/-- The string `"write: " + syscall.ECONNRESET.Error()` computed in `init`
(syslog.go line 44). -/
def econnResetErrStr : List Char := "write: connection reset by peer".data

/-- The condition at syslog.go line 200-201 guarding the in-place retry:
the error must be a `*net.OpError` that is either temporary-and-not-a-reset
or a timeout. -/
def shouldRetryInPlace (e : GoError) : Bool :=
  e.isOpError && ((e.temporary && decide (e.errStr ≠ econnResetErrStr)) || e.timeout)

/-- The condition exactly as claim C3 words it, without the `*net.OpError`
type assertion: "marked temporary and not a connection reset, or marked as
a timeout". -/
def claimedRetryInPlace (e : GoError) : Bool :=
  (e.temporary && decide (e.errStr ≠ econnResetErrStr)) || e.timeout

/-! ### TCP framing (constants at syslog.go lines 23-30, framing applied at
lines 172-182) -/

/-- The `TCPFraming` value `"traditional"`. -/
def TraditionalTCPFraming : List Char := "traditional".data

/-- The `TCPFraming` value `"octet-counted"`. -/
def OctetCountedTCPFraming : List Char := "octet-counted".data

/-- ASCII digit test on a byte. -/
def isDigitByte (b : Nat) : Bool := 48 ≤ b && b ≤ 57

/-- Little-endian base-10 digits of `n`, with explicit fuel (any
`fuel ≥ n` gives the digits of `n`). -/
def decDigitsRev (fuel : Nat) (n : Nat) : List Nat :=
  match fuel with
  | 0 => []
  | fuel + 1 => if n = 0 then [] else n % 10 :: decDigitsRev fuel (n / 10)

/-- Value of a little-endian base-10 digit list. -/
def ofDigitsLE : List Nat → Nat
  | [] => 0
  | d :: t => d + 10 * ofDigitsLE t

/-- The bytes of `fmt.Sprintf("%d", n)`: the ASCII decimal representation
of `n`, most significant digit first. -/
def decBytes (n : Nat) : List Nat :=
  if n = 0 then [48] else (decDigitsRev n n).reverse.map (fun d => 48 + d)

/-- Numeric value of a list of ASCII digit bytes, most significant first. -/
def parseDecBytes (l : List Nat) : Nat :=
  l.foldl (fun a d => a * 10 + (d - 48)) 0

/-- Decoder for RFC 6587 octet-counted framing: read a nonempty run of
ASCII digits, require a single space, and return the parsed length together
with the unframed remainder. -/
def parseOctetFrame (l : List Nat) : Option (Nat × List Nat) :=
  if l.takeWhile isDigitByte = [] then none
  else
    match l.dropWhile isDigitByte with
    | b :: r => if b = 32 then some (parseDecBytes (l.takeWhile isDigitByte), r) else none
    | [] => none

/-- The framing step of `Stream` (syslog.go lines 172-182): on a
stream-oriented connection, octet-counted framing prepends
`fmt.Sprintf("%d ", len(buf))` and traditional framing leaves the buffer
alone, while any other `tcpFraming` value panics (`none`); on other
connections the buffer is written unchanged. -/
def frameFor (kind : ConnKind) (framing : List Char) (buf : List Nat) : Option (List Nat) :=
  if isTCPConnecion kind then
    if framing = OctetCountedTCPFraming then some (decBytes buf.length ++ 32 :: buf)
    else if framing = TraditionalTCPFraming then some buf
    else none
  else some buf

/-! ### The failure-recovery path (`Adapter.retry`, syslog.go lines 199-217)

The environment records the outcomes the outside world would produce:
`inplace i` is the result of the `i`-th re-issued write on the same
connection, `dials i` the result of the `i`-th re-dial, and `finalWrite`
the result of the single write performed after a successful reconnect. -/

structure WriteEnv where
  inplace : Nat → Option GoError
  dials : Nat → Option GoError
  finalWrite : Option GoError

/-- Instrumentation attached to the result of `Adapter.retry`: how many
in-place writes were issued on the old connection, how many dial attempts
were made, and whether the owned connection was replaced. -/
structure RetryTrace where
  inplaceWrites : Nat
  dialAttempts : Nat
  connReplaced : Bool
deriving DecidableEq

/-- The reconnect phase of `Adapter.retry` (lines 208-216 together with
`Adapter.reconnect`, lines 239-254): re-dial under the retry policy; on
exhaustion return the dial error; on success the connection has been
replaced and the pending buffer is written exactly once, whose result is
the result of `retry`. -/
def reconnectPhase (env : WriteEnv) (rc : Nat) (k : Nat) : Option GoError × RetryTrace :=
  match retryExp env.dials rc with
  | (some d, dcount) => (some d, ⟨k, dcount, false⟩)
  | (none, dcount) => (env.finalWrite, ⟨k, dcount, true⟩)

/-- Model of `Adapter.retry(buf, err)` (lines 199-217): if the triggering
error satisfies the in-place condition, re-issue the write on the same
connection under the retry policy (`Adapter.retryTemporary`, lines 219-237)
and return success if that succeeds; otherwise fall through to the
reconnect phase. -/
def retryModel (env : WriteEnv) (rc : Nat) (e : GoError) : Option GoError × RetryTrace :=
  if shouldRetryInPlace e then
    match retryExp env.inplace rc with
    | (none, k) => (none, ⟨k, 0, false⟩)
    | (some _, k) => reconnectPhase env rc k
  else reconnectPhase env rc 0

/-! ### The stream loop (`Adapter.Stream`, syslog.go lines 163-197) -/

/-- Per-record environment: the result of rendering the record (`none`
models a template evaluation error), the result of the first write of the
framed buffer, and the `WriteEnv` outcomes used if recovery runs. -/
structure RecordEnv where
  render : Option (List Nat)
  firstWrite : Option GoError
  inplace : Nat → Option GoError
  dials : Nat → Option GoError
  finalWrite : Option GoError

/-- The recovery-phase outcomes of a record environment. -/
def writeEnvOf (env : RecordEnv) : WriteEnv :=
  ⟨env.inplace, env.dials, env.finalWrite⟩

/-- Outcome of processing one record. -/
inductive StepOut where
  | ok
  | dropped
  | fatalRender
  | fatalFraming
  | fatalCrash (e : GoError)
deriving DecidableEq

/-- Instrumentation for one record: the writes performed, as pairs of a
connection generation (0 = the connection owned on entry, 1 = the
replacement dialled during recovery) and the bytes written; the number of
dial attempts; and whether the owned connection was replaced. -/
structure StepTrace where
  written : List (Nat × List Nat)
  dialAttempts : Nat
  connReplaced : Bool
deriving DecidableEq

/-- One iteration of the `Stream` loop body (lines 164-196): render, frame,
write; on write error drop the record if the connection is a
`*net.UDPConn`, otherwise run `Adapter.retry`, whose non-nil error is fatal
(`log.Panicf`, line 191). -/
def processRecord (kind : ConnKind) (framing : List Char) (rc : Nat) (env : RecordEnv) :
    StepOut × StepTrace :=
  match env.render with
  | none => (.fatalRender, ⟨[], 0, false⟩)
  | some buf0 =>
    match frameFor kind framing buf0 with
    | none => (.fatalFraming, ⟨[], 0, false⟩)
    | some buf =>
      match env.firstWrite with
      | none => (.ok, ⟨[(0, buf)], 0, false⟩)
      | some e =>
        if kind = .udp then (.dropped, ⟨[(0, buf)], 0, false⟩)
        else
          match retryModel ⟨env.inplace, env.dials, env.finalWrite⟩ rc e with
          | (res, tr) =>
            match res with
            | none =>
              (.ok, ⟨(0, buf) :: (List.replicate tr.inplaceWrites (0, buf) ++
                (if tr.connReplaced then [(1, buf)] else [])), tr.dialAttempts, tr.connReplaced⟩)
            | some e2 =>
              (.fatalCrash e2, ⟨(0, buf) :: (List.replicate tr.inplaceWrites (0, buf) ++
                (if tr.connReplaced then [(1, buf)] else [])), tr.dialAttempts, tr.connReplaced⟩)

/-- How the stream loop ends: the channel drains, a render error returns
from `Stream` at record `i`, the framing panic fires at record `i`, or the
`log.Panicf` at line 191 fires at record `i` with the error returned by
`Adapter.retry`. -/
inductive Outcome where
  | drained
  | renderStop (i : Nat)
  | framingStop (i : Nat)
  | crashed (i : Nat) (e : GoError)
deriving DecidableEq

/-- The `for message := range logstream` loop of `Stream`, processing the
records whose environments are listed, `i` being the index of the first
one. -/
def streamLoop (kind : ConnKind) (framing : List Char) (rc : Nat) :
    Nat → List RecordEnv → Outcome
  | _, [] => .drained
  | i, env :: rest =>
    match (processRecord kind framing rc env).1 with
    | .fatalRender => .renderStop i
    | .fatalFraming => .framingStop i
    | .fatalCrash e => .crashed i e
    | _ => streamLoop kind framing rc (i + 1) rest

/-- A record whose processing lets the loop continue (written successfully
or dropped). -/
def nonFatalStep (kind : ConnKind) (framing : List Char) (rc : Nat) (env : RecordEnv) : Prop :=
  (processRecord kind framing rc env).1 = .ok ∨
    (processRecord kind framing rc env).1 = .dropped

/-! ### Message rendering (`NewSyslogAdapter` template construction, lines
85-131, and `Message`/`Render`, lines 284-329)

The adapter builds one `text/template` source string with
`fmt.Sprintf`, parses it once, and executes it per record.  The template
engine is modelled for the action fields this adapter uses.  Go's `%.Ns`
verb truncates its string argument to at most `N` runes. -/

/-- The opening brace character of a template action delimiter. -/
def obr : Char := Char.ofNat 123

/-- The closing brace character of a template action delimiter. -/
def cbr : Char := Char.ofNat 125

/-- A template action: the dotted field expression wrapped in double brace
delimiters. -/
def act (s : String) : List Char := obr :: obr :: (s.data ++ [cbr, cbr])

/-- Go's `%.Ns` string formatting verb: keep at most `n` runes, silently
dropping the rest. -/
def sprintfPrec (n : Nat) (s : List Char) : List Char := s.take n

/-- The RFC 5424 template source built at syslog.go line 118:
`fmt.Sprintf` with precision 255/48/128 on the hostname, tag and pid
template strings. -/
def tmplStr5424 (pri ts hn tag pid sd data : List Char) : List Char :=
  "<".data ++ pri ++ ">1 ".data ++ ts ++ " ".data ++ sprintfPrec 255 hn ++
    " ".data ++ sprintfPrec 48 tag ++ " ".data ++ sprintfPrec 128 pid ++
    " - ".data ++ sd ++ " ".data ++ data ++ "\n".data

/-- The RFC 3164 template source built at syslog.go line 124:
`fmt.Sprintf` with precision 32 on the tag template string. -/
def tmplStr3164 (pri ts hn tag pid data : List Char) : List Char :=
  "<".data ++ pri ++ ">".data ++ ts ++ " ".data ++ hn ++ " ".data ++
    sprintfPrec 32 tag ++ "[".data ++ pid ++ "]: ".data ++ data ++ "\n".data

/-- A parsed template node: literal text or an action field. -/
inductive Tok where
  | lit (s : List Char)
  | field (f : List Char)
deriving DecidableEq

/-- Scan an action body up to the closing double-brace delimiter,
returning the body and the rest of the input. -/
def splitAction (acc : List Char) : List Char → Option (List Char × List Char)
  | [] => none
  | c :: cs =>
    if c = cbr then
      match cs with
      | c2 :: cs2 => if c2 = cbr then some (acc.reverse, cs2) else splitAction (c :: acc) cs
      | [] => none
    else splitAction (c :: acc) cs

/-- Append the pending literal accumulator (kept reversed) as a literal
token, if nonempty. -/
def flushAcc (toks : List Tok) (acc : List Char) : List Tok :=
  if acc = [] then toks else toks ++ [Tok.lit acc.reverse]

/-- Template scanner: split the source into literal and action tokens;
`none` models a `template.Parse` error (an unterminated action).  The fuel
decreases every step and one step consumes at least one character, so fuel
equal to the input length always suffices. -/
def parseAux : Nat → List Char → List Tok → List Char → Option (List Tok)
  | _, acc, toks, [] => some (flushAcc toks acc)
  | 0, _, _, _ :: _ => none
  | fuel + 1, acc, toks, c :: cs =>
    if c = obr then
      match cs with
      | c2 :: cs2 =>
        if c2 = obr then
          match splitAction [] cs2 with
          | none => none
          | some (a, rest) => parseAux fuel [] (flushAcc toks acc ++ [Tok.field a]) rest
        else parseAux fuel (c :: acc) toks cs
      | [] => parseAux fuel (c :: acc) toks cs
    else parseAux fuel (c :: acc) toks cs

/-- Model of `template.New("syslog").Parse`. -/
def parseTemplate (s : List Char) : Option (List Tok) :=
  parseAux s.length [] [] s

/-- Decimal rendering of a natural number as characters (what the template
engine prints for a non-negative integer-valued field). -/
def decChars (n : Nat) : List Char :=
  if n = 0 then ['0'] else (decDigitsRev n n).reverse.map (fun d => Char.ofNat (48 + d))

/-- Decimal rendering of a Go `int` value. -/
def decCharsInt (i : Int) : List Char :=
  if i < 0 then '-' :: decChars i.natAbs else decChars i.toNat

/-- The container identity carried by a record (`docker.Container`): the
display name (Docker names carry a leading `/`), the configured hostname,
and the process id. -/
structure SContainer where
  name : List Char
  configHostname : List Char
  statePid : Int

/-- A log record (`router.Message`) as the syslog templates consume it:
source stream tag, emission time already rendered as its RFC 3339 string
(`Message.Timestamp`, line 317-319), raw payload (`Data`), and container
identity. -/
structure SMessage where
  source : List Char
  timeRFC3339 : List Char
  data : List Char
  container : SContainer

/-- Package globals read during rendering (the resolved hostname). -/
structure Globals where
  hostname : List Char

/-- Model of `Message.ContainerName` (lines 321-324): `Container.Name[1:]`,
which unconditionally drops the first byte of the display name (and panics
on an empty name, modelled as `none`). -/
def ContainerName (m : SMessage) : Option (List Char) :=
  match m.container.name with
  | [] => none
  | _ :: t => some t

/-- Evaluate one template token against a record; an unknown field is a
template execution error (`none`), which `Render` surfaces as a non-nil
error. -/
def execTok (g : Globals) (m : SMessage) : Tok → Option (List Char)
  | .lit s => some s
  | .field f =>
    if f = ".Priority".data then some (decChars (Priority m.source))
    else if f = ".Timestamp".data then some m.timeRFC3339
    else if f = ".Container.Config.Hostname".data then some m.container.configHostname
    else if f = ".ContainerName".data then ContainerName m
    else if f = ".Container.State.Pid".data then some (decCharsInt m.container.statePid)
    else if f = ".Data".data then some m.data
    else if f = ".Hostname".data then some g.hostname
    else none

/-- Evaluate a token list, concatenating the pieces (`tmpl.Execute`). -/
def execToks (g : Globals) (m : SMessage) : List Tok → Option (List Char)
  | [] => some []
  | t :: ts =>
    match execTok g m t, execToks g m ts with
    | some a, some b => some (a ++ b)
    | _, _ => none

/-- Model of `Message.Render` for a template source string: parse then
execute. -/
def renderTemplate (g : Globals) (m : SMessage) (s : List Char) : Option (List Char) :=
  match parseTemplate s with
  | none => none
  | some toks => execToks g m toks

/-- Default `SYSLOG_PRIORITY` template. -/
def defaultPriorityTmpl : List Char := act ".Priority"

/-- Default `SYSLOG_TIMESTAMP` template. -/
def defaultTimestampTmpl : List Char := act ".Timestamp"

/-- Default hostname template (`getHostname` fallback when
`/etc/host_hostname` is absent and `SYSLOG_HOSTNAME` is unset). -/
def defaultHostnameTmpl : List Char := act ".Container.Config.Hostname"

/-- The tag template built at syslog.go line 90: the `ContainerName`
action followed by the route's `append_tag` option. -/
def tagTemplate (appendTag : List Char) : List Char := act ".ContainerName" ++ appendTag

/-- Default `SYSLOG_PID` template. -/
def defaultPidTmpl : List Char := act ".Container.State.Pid"

/-- Default `SYSLOG_DATA` template. -/
def defaultDataTmpl : List Char := act ".Data"

/-- The full RFC 5424 template source under the default configuration
(empty `append_tag`, empty structured data rendered as `"-"`). -/
def defaultTmplStr5424 : List Char :=
  tmplStr5424 defaultPriorityTmpl defaultTimestampTmpl defaultHostnameTmpl (tagTemplate [])
    defaultPidTmpl "-".data defaultDataTmpl

/-- Rendering a record under the default RFC 5424 configuration. -/
def renderDefault5424 (g : Globals) (m : SMessage) : Option (List Char) :=
  renderTemplate g m defaultTmplStr5424

/-- The tag portion of the RFC 5424 template as the adapter constructs it:
the tag template string truncated by the `%.48s` verb, then parsed and
executed against the record. -/
def renderedTag (g : Globals) (m : SMessage) (appendTag : List Char) : Option (List Char) :=
  renderTemplate g m (sprintfPrec 48 (tagTemplate appendTag))

/-- Split a character list at a separator (used to extract the
space-separated fields of a rendered message). -/
def splitOnChar (sep : Char) : List Char → List (List Char)
  | [] => [[]]
  | c :: cs =>
    if c = sep then [] :: splitOnChar sep cs
    else
      match splitOnChar sep cs with
      | [] => [[c]]
      | g :: gs => (c :: g) :: gs

/-- UTF-8 byte length of a character list (Go measures `len` of a string
in bytes). -/
def utf8Len (s : List Char) : Nat := (s.map Char.utf8Size).sum

/-- A character free of the action-delimiter brace (a literal suffix). -/
def braceFree (t : List Char) : Prop := ∀ c ∈ t, c ≠ obr

instance braceFree.dec (t : List Char) : Decidable (braceFree t) := by
  unfold braceFree
  infer_instance

/-! ### Adapter construction (`NewSyslogAdapter`, syslog.go lines 75-139,
and `setTCPFraming`, lines 141-152) -/

/-- Construction-time inputs: whether the transport lookup succeeds,
whether the initial dial succeeds, the dialled connection's kind, the
`SYSLOG_FORMAT` value, the `SYSLOG_TCP_FRAMING` value, and the effective
template strings (environment defaults already applied). -/
structure BuildCfg where
  transportFound : Bool
  dialOk : Bool
  connKind : ConnKind
  format : List Char
  framingEnv : List Char
  priorityT : List Char
  timestampT : List Char
  hostnameT : List Char
  tagT : List Char
  pidT : List Char
  sdRaw : List Char
  dataT : List Char

/-- The constructed adapter: connection kind, the `tcpFraming` global as
left by construction (empty when never set), and the parsed template. -/
structure AdapterModel where
  connKind : ConnKind
  tcpFraming : List Char
  toks : List Tok

/-- Model of `setTCPFraming` (lines 141-152): validate the
`SYSLOG_TCP_FRAMING` value, failing on anything but the two known
modes. -/
def setTCPFraming (s : List Char) : Except (List Char) (List Char) :=
  if s = TraditionalTCPFraming then .ok s
  else if s = OctetCountedTCPFraming then .ok s
  else .error ("unknown SYSLOG_TCP_FRAMING value: ".data ++ s)

/-- The structured-data transformation at lines 98-102: empty becomes the
`-` placeholder, non-empty is wrapped in square brackets. -/
def sdTransform (sd : List Char) : List Char :=
  if sd = [] then "-".data else '[' :: (sd ++ [']'])

/-- The framing resolution at lines 104-108: only performed when the
dialled connection is stream-oriented; otherwise the `tcpFraming` global
keeps its zero value. -/
def framingResult (cfg : BuildCfg) : Except (List Char) (List Char) :=
  if isTCPConnecion cfg.connKind then setTCPFraming cfg.framingEnv else .ok []

/-- The format switch at lines 110-128 followed by `template.Parse` at
line 129. -/
def formatStep (cfg : BuildCfg) (fr : List Char) : Except (List Char) AdapterModel :=
  if cfg.format = "rfc5424".data then
    match parseTemplate (tmplStr5424 cfg.priorityT cfg.timestampT cfg.hostnameT cfg.tagT
        cfg.pidT (sdTransform cfg.sdRaw) cfg.dataT) with
    | none => .error ("template parse error".data)
    | some toks => .ok ⟨cfg.connKind, fr, toks⟩
  else if cfg.format = "rfc3164".data then
    match parseTemplate (tmplStr3164 cfg.priorityT cfg.timestampT cfg.hostnameT cfg.tagT
        cfg.pidT cfg.dataT) with
    | none => .error ("template parse error".data)
    | some toks => .ok ⟨cfg.connKind, fr, toks⟩
  else .error ("unsupported syslog format: ".data ++ cfg.format)

/-- Model of `NewSyslogAdapter` (lines 75-139): transport lookup, dial,
framing validation (stream connections only), format switch, template
parse. -/
def NewSyslogAdapter (cfg : BuildCfg) : Except (List Char) AdapterModel :=
  if cfg.transportFound = false then .error ("bad transport".data)
  else if cfg.dialOk = false then .error ("dial error".data)
  else
    match framingResult cfg with
    | .error err => .error err
    | .ok fr => formatStep cfg fr

/-! ## Theorems -/

theorem retryExpFrom_allFail {ε : Type} (f : Nat → Option ε) :
    ∀ (r idx : Nat), (∀ i, idx ≤ i → i ≤ idx + r → (f i).isSome) →
      retryExpFrom f idx r = (f (idx + r), idx + r + 1) := by
  intro r
  induction r with
  | zero =>
    intro idx h
    have h0 := h idx (Nat.le_refl _) (Nat.le_refl _)
    obtain ⟨e, he⟩ := Option.isSome_iff_exists.mp h0
    simp [retryExpFrom, he]
  | succ r ih =>
    intro idx h
    have h0 := h idx (Nat.le_refl _) (Nat.le_add_right _ _)
    obtain ⟨e, he⟩ := Option.isSome_iff_exists.mp h0
    have step : retryExpFrom f idx (r + 1) = retryExpFrom f (idx + 1) r := by
      simp [retryExpFrom, he]
    rw [step, ih (idx + 1) (fun i h1 h2 => h i (by omega) (by omega))]
    have harg : idx + 1 + r = idx + (r + 1) := by omega
    rw [harg]

theorem retryExpFrom_firstSuccess {ε : Type} (f : Nat → Option ε) :
    ∀ (j r idx : Nat), j ≤ r → f (idx + j) = none →
      (∀ i, i < j → (f (idx + i)).isSome) →
      retryExpFrom f idx r = (none, idx + j + 1) := by
  intro j
  induction j with
  | zero =>
    intro r idx _ hsucc _
    have h0 : f idx = none := by simpa using hsucc
    cases r <;> simp [retryExpFrom, h0]
  | succ j ih =>
    intro r idx hle hsucc hfail
    have h0 : (f idx).isSome := by simpa using hfail 0 (Nat.succ_pos _)
    obtain ⟨e, he⟩ := Option.isSome_iff_exists.mp h0
    obtain ⟨r', rfl⟩ : ∃ r', r = r' + 1 := ⟨r - 1, by omega⟩
    have step : retryExpFrom f idx (r' + 1) = retryExpFrom f (idx + 1) r' := by
      simp [retryExpFrom, he]
    have hsucc' : f (idx + 1 + j) = none := by
      have : idx + 1 + j = idx + (j + 1) := by omega
      rw [this]; exact hsucc
    have hfail' : ∀ i, i < j → (f (idx + 1 + i)).isSome := by
      intro i hi
      have : idx + 1 + i = idx + (i + 1) := by omega
      rw [this]; exact hfail (i + 1) (by omega)
    rw [step, ih r' (idx + 1) (by omega) hsucc' hfail']
    have : idx + 1 + j + 1 = idx + (j + 1) + 1 := by omega
    rw [this]

/-- C2: for every retry budget `tries` and every zero-argument fallible
operation `f` (modelled as the sequence of results of its successive
invocations, `f i` being the result of invocation number `i + 1`, `none`
meaning success): if the operation fails on every invocation, `retryExp`
invokes it exactly `tries + 1` times and returns the error of the last
invocation; if it first succeeds on invocation number `k + 1` with
`k + 1 ≤ tries + 1`, `retryExp` invokes it exactly `k + 1` times and returns
success. -/
theorem C2_retryExp_policy {ε : Type} (f : Nat → Option ε) (tries k : Nat) :
    ((∀ i, i ≤ tries → (f i).isSome) →
      retryExp f tries = (f tries, tries + 1)) ∧
    (k ≤ tries → f k = none → (∀ i, i < k → (f i).isSome) →
      retryExp f tries = (none, k + 1)) := by
  constructor
  · intro h
    have := retryExpFrom_allFail f tries 0 (fun i _ h2 => h i (by omega))
    simpa [retryExp] using this
  · intro hk hsucc hfail
    have := retryExpFrom_firstSuccess f k tries 0 hk (by simpa using hsucc)
      (fun i hi => by simpa using hfail i hi)
    simpa [retryExp] using this

/-- C2 witness: an operation failing on its first two invocations and
succeeding on the third, with budget 5, is invoked exactly 3 times and
returns success. -/
theorem C2_retryExp_policy_witness :
    retryExp (fun i => if i < 2 then some 0 else none) 5 = (none, 3) := by
  have h := (C2_retryExp_policy (fun i => if i < 2 then some 0 else none) 5 2).2
  exact h (by omega) (by simp) (fun i hi => by simp [hi])

/-- C9: the syslog priority is a pure function of the source stream tag
alone (by construction `Priority` consumes nothing but the source):
`"stdout"` maps to user.info = 14, `"stderr"` to user.err = 11, and every
other source to daemon.info = 30. -/
theorem C9_priority_mapping (s : List Char) :
    Priority "stdout".data = 14 ∧ Priority "stderr".data = 11 ∧
    (s ≠ "stdout".data → s ≠ "stderr".data → Priority s = 30) := by
  refine ⟨by decide, by decide, fun h1 h2 => ?_⟩
  simp only [Priority, if_neg h1, if_neg h2]
  decide

/-- C9 witness: a source that is neither `"stdout"` nor `"stderr"` gets
priority 30. -/
theorem C9_priority_mapping_witness : Priority "syslog".data = 30 := by
  have h := (C9_priority_mapping "syslog".data).2.2
  exact h (by decide) (by decide)

theorem goAtoi_range {s : List Char} {n : Int} (h : goAtoi s = some n) :
    -(2 ^ 63) ≤ n ∧ n ≤ 2 ^ 63 - 1 := by
  unfold goAtoi at h
  split at h
  · exact absurd h (by simp)
  · split at h
    · split at h
      · cases Option.some_injective _ h
        assumption
      · exact absurd h (by simp)
    · exact absurd h (by simp)

/-- C10: when `RETRY_COUNT` parses as a negative integer `n`, the stored
retry budget is `uint(n) = n + 2 ^ 64` (i.e. `n` modulo `2 ^ 64`; for
example `-1` yields `2 ^ 64 - 1`), and a value that does not parse as an
integer falls back to the default of 10. -/
theorem C10_setRetryCount_wraps (s : List Char) (n : Int) :
    (goAtoi s = none → setRetryCount s = 10) ∧
    (goAtoi s = some n → n < 0 →
      setRetryCount s = ((2 : Int) ^ 64 + n).toNat) ∧
    setRetryCount "-1".data = 2 ^ 64 - 1 := by
  refine ⟨fun h => by simp [setRetryCount, h, defaultRetryCount], fun h hn => ?_, by decide⟩
  have hrange := (goAtoi_range h).1
  simp only [setRetryCount, h]
  omega

/-- C10 witness: `RETRY_COUNT=-5` stores `2 ^ 64 - 5`, and a non-numeric
value stores the default 10. -/
theorem C10_setRetryCount_wraps_witness :
    setRetryCount "-5".data = 2 ^ 64 - 5 ∧ setRetryCount "ten".data = 10 := by
  constructor
  · have h := (C10_setRetryCount_wraps "-5".data (-5)).2.1 (by decide) (by decide)
    rw [h]; decide
  · exact (C10_setRetryCount_wraps "ten".data 0).1 (by decide)

theorem ofDigitsLE_decDigitsRev : ∀ (fuel n : Nat), n ≤ fuel →
    ofDigitsLE (decDigitsRev fuel n) = n := by
  intro fuel
  induction fuel with
  | zero => intro n h; interval_cases n; simp [decDigitsRev, ofDigitsLE]
  | succ fuel ih =>
    intro n h
    by_cases h0 : n = 0
    · simp [decDigitsRev, h0, ofDigitsLE]
    · have hdiv : n / 10 ≤ fuel := by
        have := Nat.div_lt_self (Nat.pos_of_ne_zero h0) (by norm_num : 1 < 10)
        omega
      simp only [decDigitsRev, if_neg h0, ofDigitsLE, ih (n / 10) hdiv]
      omega

theorem decDigitsRev_lt : ∀ (fuel n d : Nat), d ∈ decDigitsRev fuel n → d < 10 := by
  intro fuel
  induction fuel with
  | zero => intro n d h; simp [decDigitsRev] at h
  | succ fuel ih =>
    intro n d h
    by_cases h0 : n = 0
    · simp [decDigitsRev, h0] at h
    · simp only [decDigitsRev, if_neg h0, List.mem_cons] at h
      rcases h with h | h
      · subst h; exact Nat.mod_lt _ (by norm_num)
      · exact ih _ _ h

theorem foldl_mul_add_reverse :
    ∀ (l : List Nat) (acc : Nat),
      List.foldl (fun a d => a * 10 + d) acc l.reverse =
        acc * 10 ^ l.length + ofDigitsLE l := by
  intro l
  induction l with
  | nil => intro acc; simp [ofDigitsLE]
  | cons d t ih =>
    intro acc
    rw [List.reverse_cons, List.foldl_append, ih acc]
    simp only [List.foldl, ofDigitsLE, List.length_cons]
    ring

theorem parseDecBytes_decBytes (n : Nat) : parseDecBytes (decBytes n) = n := by
  by_cases h0 : n = 0
  · subst h0; decide
  · simp only [decBytes, if_neg h0, parseDecBytes, List.foldl_map]
    have hfun : (fun (a d : Nat) => a * 10 + (48 + d - 48)) = fun a d => a * 10 + d := by
      funext a d; omega
    rw [hfun, foldl_mul_add_reverse]
    simp [ofDigitsLE_decDigitsRev n n (Nat.le_refl n)]

theorem decBytes_isDigit {n b : Nat} (h : b ∈ decBytes n) : isDigitByte b = true := by
  unfold decBytes at h
  split at h
  · simp at h; subst h; decide
  · simp only [List.mem_map, List.mem_reverse] at h
    obtain ⟨d, hd, rfl⟩ := h
    have := decDigitsRev_lt n n d hd
    simp [isDigitByte]
    omega

theorem decBytes_ne_nil (n : Nat) : decBytes n ≠ [] := by
  unfold decBytes
  split
  · simp
  · rename_i h0
    have : decDigitsRev n n ≠ [] := by
      cases n with
      | zero => exact absurd rfl h0
      | succ m => simp [decDigitsRev, h0]
    simp [this]

theorem takeWhile_digits_space (buf : List Nat) :
    ∀ ds, (∀ b ∈ ds, isDigitByte b = true) →
      (ds ++ 32 :: buf).takeWhile isDigitByte = ds ∧
      (ds ++ 32 :: buf).dropWhile isDigitByte = 32 :: buf := by
  intro ds
  induction ds with
  | nil =>
    intro _
    constructor <;> simp [List.takeWhile, List.dropWhile, isDigitByte]
  | cons d t ih =>
    intro h
    have hd : isDigitByte d = true := h d (by simp)
    have ht := ih (fun b hb => h b (by simp [hb]))
    simp only [List.cons_append, List.takeWhile_cons, List.dropWhile_cons, hd, if_true]
    exact ⟨by rw [ht.1], by rw [ht.2]⟩

theorem parseOctetFrame_decBytes (buf : List Nat) :
    parseOctetFrame (decBytes buf.length ++ 32 :: buf) = some (buf.length, buf) := by
  obtain ⟨htw, hdw⟩ :=
    takeWhile_digits_space buf (decBytes buf.length) (fun b hb => decBytes_isDigit hb)
  unfold parseOctetFrame
  rw [htw, hdw]
  rw [if_neg (by simpa using decBytes_ne_nil buf.length)]
  simp [parseDecBytes_decBytes]

theorem processRecord_okWrite (kind : ConnKind) (framing : List Char) (rc : Nat)
    (env : RecordEnv) (buf fb : List Nat)
    (hr : env.render = some buf) (hf : frameFor kind framing buf = some fb)
    (hw : env.firstWrite = none) :
    processRecord kind framing rc env = (.ok, ⟨[(0, fb)], 0, false⟩) := by
  unfold processRecord
  rw [hr]
  simp [hf, hw]

/-- C4: on a stream-oriented connection with octet-counted framing the bytes
written for a rendered buffer `buf` are the ASCII decimal representation of
`buf`'s byte length, one space, then `buf` unchanged, and decoding that
frame recovers exactly the byte length of the unframed remainder together
with the remainder; with traditional framing, or on a non-stream
(datagram) connection, the buffer is written unchanged. -/
theorem C4_octet_counted_framing (buf : List Nat) (kind : ConnKind) (framing : List Char)
    (rc : Nat) (env : RecordEnv) :
    (isTCPConnecion kind = true →
      frameFor kind OctetCountedTCPFraming buf = some (decBytes buf.length ++ 32 :: buf) ∧
      parseOctetFrame (decBytes buf.length ++ 32 :: buf) = some (buf.length, buf) ∧
      frameFor kind TraditionalTCPFraming buf = some buf ∧
      (env.render = some buf → env.firstWrite = none →
        processRecord kind OctetCountedTCPFraming rc env =
          (.ok, ⟨[(0, decBytes buf.length ++ 32 :: buf)], 0, false⟩))) ∧
    (isTCPConnecion kind = false →
      frameFor kind framing buf = some buf ∧
      (env.render = some buf → env.firstWrite = none →
        processRecord kind framing rc env = (.ok, ⟨[(0, buf)], 0, false⟩))) := by
  constructor
  · intro h
    have hoct : frameFor kind OctetCountedTCPFraming buf =
        some (decBytes buf.length ++ 32 :: buf) := by
      simp [frameFor, h]
    refine ⟨hoct, parseOctetFrame_decBytes buf, ?_, ?_⟩
    · unfold frameFor
      rw [h, if_pos rfl, if_neg (by decide), if_pos rfl]
    · intro hr hw
      exact processRecord_okWrite kind OctetCountedTCPFraming rc env buf _ hr hoct hw
  · intro h
    have hid : frameFor kind framing buf = some buf := by simp [frameFor, h]
    exact ⟨hid, fun hr hw => processRecord_okWrite kind framing rc env buf _ hr hid hw⟩

/-- C4 witness: the two-byte buffer `"hi"` ([104, 105]) framed on a TCP
connection becomes `"2 hi"` ([50, 32, 104, 105]), which decodes back to
length 2 and the original bytes, and is what the loop writes; on a UDP
connection the buffer is unchanged. -/
theorem C4_octet_counted_framing_witness :
    frameFor .tcp OctetCountedTCPFraming [104, 105] = some [50, 32, 104, 105] ∧
    parseOctetFrame [50, 32, 104, 105] = some (2, [104, 105]) ∧
    frameFor .udp OctetCountedTCPFraming [104, 105] = some [104, 105] ∧
    processRecord .tcp OctetCountedTCPFraming 0
        ⟨some [104, 105], none, fun _ => none, fun _ => none, none⟩ =
      (.ok, ⟨[(0, [50, 32, 104, 105])], 0, false⟩) := by
  have h := (C4_octet_counted_framing [104, 105] .tcp OctetCountedTCPFraming 0
    ⟨some [104, 105], none, fun _ => none, fun _ => none, none⟩).1 (by decide)
  have hu := (C4_octet_counted_framing [104, 105] .udp OctetCountedTCPFraming 0
    ⟨some [104, 105], none, fun _ => none, fun _ => none, none⟩).2 (by decide)
  have e1 : decBytes ([104, 105] : List Nat).length ++ 32 :: [104, 105] =
      [50, 32, 104, 105] := by decide
  have e2 : ([104, 105] : List Nat).length = 2 := by decide
  refine ⟨?_, ?_, hu.1, ?_⟩
  · rw [← e1]; exact h.1
  · have := h.2.1
    rw [e1, e2] at this
    exact this
  · have := h.2.2.2 rfl rfl
    rw [e1] at this
    exact this

/-- C5: a write error on a datagram (UDP) connection drops the current
record after its single write attempt — no in-place retry, no dial, the
owned connection is never replaced — and the stream loop continues with the
next record. -/
theorem C5_udp_write_error_drops (framing : List Char) (rc : Nat) (env : RecordEnv)
    (buf : List Nat) (e : GoError) (rest : List RecordEnv) (i : Nat)
    (hr : env.render = some buf) (hw : env.firstWrite = some e) :
    processRecord .udp framing rc env = (.dropped, ⟨[(0, buf)], 0, false⟩) ∧
    streamLoop .udp framing rc i (env :: rest) = streamLoop .udp framing rc (i + 1) rest := by
  have hframe : frameFor .udp framing buf = some buf := by simp [frameFor, isTCPConnecion]
  have hstep : processRecord .udp framing rc env = (.dropped, ⟨[(0, buf)], 0, false⟩) := by
    unfold processRecord
    rw [hr]
    simp [hframe, hw]
  refine ⟨hstep, ?_⟩
  simp only [streamLoop, hstep]

/-- C5 witness: a concrete UDP record whose only write fails is dropped
with a single write on the original connection, and a one-record stream
then drains. -/
theorem C5_udp_write_error_drops_witness :
    processRecord .udp TraditionalTCPFraming 3
        ⟨some [7], some ⟨true, true, false, []⟩, fun _ => none, fun _ => none, none⟩ =
      (.dropped, ⟨[(0, [7])], 0, false⟩) ∧
    streamLoop .udp TraditionalTCPFraming 3 0
        [⟨some [7], some ⟨true, true, false, []⟩, fun _ => none, fun _ => none, none⟩] =
      .drained := by
  have h := C5_udp_write_error_drops TraditionalTCPFraming 3
    ⟨some [7], some ⟨true, true, false, []⟩, fun _ => none, fun _ => none, none⟩
    [7] ⟨true, true, false, []⟩ [] 0 rfl rfl
  exact ⟨h.1, by rw [h.2]; rfl⟩

theorem retryExpFrom_snd_ge {ε : Type} (f : Nat → Option ε) :
    ∀ (r idx : Nat), idx + 1 ≤ (retryExpFrom f idx r).2 := by
  intro r
  induction r with
  | zero =>
    intro idx
    cases hf : f idx <;> simp [retryExpFrom, hf]
  | succ r ih =>
    intro idx
    cases hf : f idx with
    | none => simp [retryExpFrom, hf]
    | some e =>
      have step : retryExpFrom f idx (r + 1) = retryExpFrom f (idx + 1) r := by
        simp [retryExpFrom, hf]
      rw [step]
      have := ih (idx + 1)
      omega

theorem reconnectPhase_spec (w : WriteEnv) (rc k : Nat) :
    (reconnectPhase w rc k).2.inplaceWrites = k ∧
    ((retryExp w.dials rc).1 = none →
      reconnectPhase w rc k = (w.finalWrite, ⟨k, (retryExp w.dials rc).2, true⟩)) ∧
    (∀ d, (retryExp w.dials rc).1 = some d →
      reconnectPhase w rc k = (some d, ⟨k, (retryExp w.dials rc).2, false⟩)) := by
  unfold reconnectPhase
  rcases hx : retryExp w.dials rc with ⟨res, dc⟩
  cases res with
  | none => simp [hx]
  | some d => simp [hx]

theorem retryModel_noInPlace (w : WriteEnv) (rc : Nat) (e : GoError)
    (h : shouldRetryInPlace e = false) :
    retryModel w rc e = reconnectPhase w rc 0 := by
  simp [retryModel, h]

theorem retryModel_inPlace (w : WriteEnv) (rc : Nat) (e : GoError)
    (h : shouldRetryInPlace e = true) :
    ((retryExp w.inplace rc).1 = none →
      retryModel w rc e = (none, ⟨(retryExp w.inplace rc).2, 0, false⟩)) ∧
    (∀ e2, (retryExp w.inplace rc).1 = some e2 →
      retryModel w rc e = reconnectPhase w rc (retryExp w.inplace rc).2) := by
  unfold retryModel
  rcases hx : retryExp w.inplace rc with ⟨res, k⟩
  cases res with
  | none => simp [h, hx]
  | some e2 => simp [h, hx]

theorem retryModel_inplacePos (w : WriteEnv) (rc : Nat) (e : GoError) :
    0 < (retryModel w rc e).2.inplaceWrites ↔ shouldRetryInPlace e = true := by
  by_cases h : shouldRetryInPlace e
  · rcases hx : retryExp w.inplace rc with ⟨res, k⟩
    have hk : 1 ≤ k := by
      have := retryExpFrom_snd_ge w.inplace rc 0
      rw [show retryExpFrom w.inplace 0 rc = retryExp w.inplace rc from rfl, hx] at this
      simpa using this
    cases res with
    | none =>
      have heq := (retryModel_inPlace w rc e h).1 (by rw [hx])
      rw [heq, hx]
      exact ⟨fun _ => h, fun _ => hk⟩
    | some e2 =>
      have heq := (retryModel_inPlace w rc e h).2 e2 (by rw [hx])
      have hrec := (reconnectPhase_spec w rc (retryExp w.inplace rc).2).1
      rw [heq, hrec, hx]
      exact ⟨fun _ => h, fun _ => hk⟩
  · rw [retryModel_noInPlace w rc e (by simpa using h)]
    rw [(reconnectPhase_spec w rc 0).1]
    simp [h]

theorem streamLoop_nonFatal_append (kind : ConnKind) (framing : List Char) (rc : Nat) :
    ∀ (pre l : List RecordEnv) (i : Nat),
      (∀ env ∈ pre, nonFatalStep kind framing rc env) →
      streamLoop kind framing rc i (pre ++ l) = streamLoop kind framing rc (i + pre.length) l := by
  intro pre
  induction pre with
  | nil => intro l i _; simp
  | cons env t ih =>
    intro l i h
    have henv := h env (by simp)
    have hrest : ∀ x ∈ t, nonFatalStep kind framing rc x := fun x hx => h x (by simp [hx])
    have hstep : streamLoop kind framing rc i ((env :: t) ++ l) =
        streamLoop kind framing rc (i + 1) (t ++ l) := by
      rcases henv with hok | hdrop
      · simp only [List.cons_append, streamLoop, hok]
        rfl
      · simp only [List.cons_append, streamLoop, hdrop]
        rfl
    rw [hstep, ih l (i + 1) hrest]
    have harg : i + 1 + t.length = i + (env :: t).length := by
      simp only [List.length_cons]
      omega
    rw [harg]

/-- C6: if rendering a record fails, the stream loop terminates at that
record: no bytes are written for it (its step trace is empty) and no
further records are processed (the outcome is `renderStop` at that record's
index, whatever records follow). -/
theorem C6_render_failure_fatal (kind : ConnKind) (framing : List Char) (rc : Nat)
    (env : RecordEnv) (pre rest : List RecordEnv) (i : Nat)
    (hr : env.render = none)
    (hpre : ∀ x ∈ pre, nonFatalStep kind framing rc x) :
    processRecord kind framing rc env = (.fatalRender, ⟨[], 0, false⟩) ∧
    streamLoop kind framing rc i (pre ++ env :: rest) = .renderStop (i + pre.length) := by
  have hstep : processRecord kind framing rc env = (.fatalRender, ⟨[], 0, false⟩) := by
    unfold processRecord
    rw [hr]
  refine ⟨hstep, ?_⟩
  rw [streamLoop_nonFatal_append kind framing rc pre (env :: rest) i hpre]
  simp only [streamLoop, hstep]

/-- C6 witness: with one successfully written record followed by a record
whose render fails, a three-record stream stops at index 1 with nothing
written for the failing record. -/
theorem C6_render_failure_fatal_witness :
    processRecord .tcp TraditionalTCPFraming 2
        ⟨none, none, fun _ => none, fun _ => none, none⟩ =
      (.fatalRender, ⟨[], 0, false⟩) ∧
    streamLoop .tcp TraditionalTCPFraming 2 0
        [⟨some [7], none, fun _ => none, fun _ => none, none⟩,
         ⟨none, none, fun _ => none, fun _ => none, none⟩,
         ⟨some [8], none, fun _ => none, fun _ => none, none⟩] =
      .renderStop 1 := by
  have h := C6_render_failure_fatal .tcp TraditionalTCPFraming 2
    ⟨none, none, fun _ => none, fun _ => none, none⟩
    [⟨some [7], none, fun _ => none, fun _ => none, none⟩]
    [⟨some [8], none, fun _ => none, fun _ => none, none⟩] 0 rfl
    (by
      intro x hx
      rw [List.mem_singleton] at hx
      subst hx
      left
      decide)
  exact ⟨h.1, h.2⟩

theorem processRecord_writeError (kind : ConnKind) (framing : List Char) (rc : Nat)
    (env : RecordEnv) (buf fb : List Nat) (e : GoError)
    (hne : kind ≠ .udp) (hr : env.render = some buf)
    (hf : frameFor kind framing buf = some fb) (hw : env.firstWrite = some e) :
    processRecord kind framing rc env =
      ((match (retryModel (writeEnvOf env) rc e).1 with
        | none => StepOut.ok
        | some e2 => StepOut.fatalCrash e2),
       ⟨(0, fb) :: (List.replicate (retryModel (writeEnvOf env) rc e).2.inplaceWrites (0, fb) ++
          (if (retryModel (writeEnvOf env) rc e).2.connReplaced then [(1, fb)] else [])),
        (retryModel (writeEnvOf env) rc e).2.dialAttempts,
        (retryModel (writeEnvOf env) rc e).2.connReplaced⟩) := by
  unfold processRecord
  rw [hr]
  simp only [hf, hw, if_neg hne, writeEnvOf]
  cases h2 : (retryModel ⟨env.inplace, env.dials, env.finalWrite⟩ rc e).1 <;> simp [h2]

/-- C3 (amended): on a stream-oriented (TCP/TLS) connection, a write error
triggers the in-place retry exactly when the error is a `*net.OpError`
that is marked temporary and is not a connection reset, or is marked as a
timeout (`shouldRetryInPlace`); when the in-place retry succeeds within
the budget the record is done, with no dial and no connection replacement;
otherwise — including when the error is not a `*net.OpError` — the
destination is re-dialled under the retry policy: on dial exhaustion the
dial error is returned, the connection not replaced; on dial success the
connection is replaced and the same pending (framed) buffer is written
exactly once on the new connection (generation 1 in the write trace),
whose result decides the outcome; a non-nil result of `Adapter.retry`
terminates the stream loop fatally at the current record, whatever records
follow. -/
theorem C3_stream_write_error_recovery (kind : ConnKind) (framing : List Char) (rc : Nat)
    (env : RecordEnv) (buf fb : List Nat) (e : GoError) (rest : List RecordEnv) (i : Nat)
    (hkind : kind = .tcp ∨ kind = .tls)
    (hr : env.render = some buf)
    (hf : frameFor kind framing buf = some fb)
    (hw : env.firstWrite = some e) :
    (0 < (retryModel (writeEnvOf env) rc e).2.inplaceWrites ↔ shouldRetryInPlace e = true) ∧
    (shouldRetryInPlace e = true → (retryExp env.inplace rc).1 = none →
      retryModel (writeEnvOf env) rc e = (none, ⟨(retryExp env.inplace rc).2, 0, false⟩) ∧
      (processRecord kind framing rc env).1 = .ok) ∧
    ((shouldRetryInPlace e = false ∨ (retryExp env.inplace rc).1.isSome) →
      ((retryExp env.dials rc).1 = none →
        (retryModel (writeEnvOf env) rc e).1 = env.finalWrite ∧
        (retryModel (writeEnvOf env) rc e).2.connReplaced = true ∧
        (retryModel (writeEnvOf env) rc e).2.dialAttempts = (retryExp env.dials rc).2) ∧
      (∀ d, (retryExp env.dials rc).1 = some d →
        (retryModel (writeEnvOf env) rc e).1 = some d ∧
        (retryModel (writeEnvOf env) rc e).2.connReplaced = false)) ∧
    ((processRecord kind framing rc env).2.written =
      (0, fb) :: (List.replicate (retryModel (writeEnvOf env) rc e).2.inplaceWrites (0, fb) ++
        (if (retryModel (writeEnvOf env) rc e).2.connReplaced then [(1, fb)] else []))) ∧
    (∀ e2, (retryModel (writeEnvOf env) rc e).1 = some e2 →
      (processRecord kind framing rc env).1 = .fatalCrash e2 ∧
      streamLoop kind framing rc i (env :: rest) = .crashed i e2) := by
  have hne : kind ≠ .udp := by
    rcases hkind with h | h <;> subst h <;> simp
  have hproc := processRecord_writeError kind framing rc env buf fb e hne hr hf hw
  refine ⟨retryModel_inplacePos _ rc e, ?_, ?_, ?_, ?_⟩
  · intro hs hnone
    have heq := (retryModel_inPlace (writeEnvOf env) rc e hs).1 hnone
    refine ⟨heq, ?_⟩
    rw [hproc, heq]
  · intro hdisj
    have hrm : ∃ k, retryModel (writeEnvOf env) rc e = reconnectPhase (writeEnvOf env) rc k := by
      by_cases hs : shouldRetryInPlace e
      · rcases hdisj with hfalse | hsome
        · rw [hs] at hfalse
          exact absurd hfalse (by simp)
        · obtain ⟨e2, he2⟩ := Option.isSome_iff_exists.mp hsome
          exact ⟨_, (retryModel_inPlace (writeEnvOf env) rc e hs).2 e2 he2⟩
      · exact ⟨0, retryModel_noInPlace (writeEnvOf env) rc e (by simpa using hs)⟩
    obtain ⟨k, hk⟩ := hrm
    have hspec := reconnectPhase_spec (writeEnvOf env) rc k
    constructor
    · intro hd
      have := hspec.2.1 hd
      rw [hk, this]
      exact ⟨rfl, rfl, rfl⟩
    · intro d hd
      have := hspec.2.2 d hd
      rw [hk, this]
      exact ⟨rfl, rfl⟩
  · rw [hproc]
  · intro e2 he2
    have h1 : (processRecord kind framing rc env).1 = .fatalCrash e2 := by
      rw [hproc, he2]
    refine ⟨h1, ?_⟩
    simp only [streamLoop, h1]

/-- C3 counterexample: a write error marked temporary (and not a
connection reset) whose dynamic type is not `*net.OpError` satisfies the
claim's in-place-retry condition (`claimedRetryInPlace`), yet the adapter
issues no in-place retry at all and instead dials immediately:
the claim's "exactly when the error is marked temporary and is not a
connection reset, or is marked as a timeout" is false on the code, which
additionally requires the `*net.OpError` type assertion to succeed. -/
theorem C3_stream_write_error_recovery_counterexample :
    claimedRetryInPlace ⟨false, true, false, "x".data⟩ = true ∧
    (retryModel ⟨fun _ => none, fun _ => none, none⟩ 2
        ⟨false, true, false, "x".data⟩).2.inplaceWrites = 0 ∧
    (retryModel ⟨fun _ => none, fun _ => none, none⟩ 2
        ⟨false, true, false, "x".data⟩).2.dialAttempts = 1 := by
  refine ⟨by decide, ?_, ?_⟩ <;> rfl

/-- C3 witness: a temporary `*net.OpError` write failure on a TCP
connection whose first in-place retry succeeds: the record completes with
no dial and no connection replacement. -/
theorem C3_stream_write_error_recovery_witness :
    retryModel (writeEnvOf ⟨some [7], some ⟨true, true, false, "x".data⟩,
        (fun i => if i = 0 then some ⟨true, true, false, "x".data⟩ else none),
        (fun _ => none), none⟩) 1 ⟨true, true, false, "x".data⟩ =
      (none, ⟨2, 0, false⟩) ∧
    (processRecord .tcp TraditionalTCPFraming 1
        ⟨some [7], some ⟨true, true, false, "x".data⟩,
          (fun i => if i = 0 then some ⟨true, true, false, "x".data⟩ else none),
          (fun _ => none), none⟩).1 = .ok := by
  have h := (C3_stream_write_error_recovery .tcp TraditionalTCPFraming 1
    ⟨some [7], some ⟨true, true, false, "x".data⟩,
      (fun i => if i = 0 then some ⟨true, true, false, "x".data⟩ else none),
      (fun _ => none), none⟩
    [7] [7] ⟨true, true, false, "x".data⟩ [] 0
    (Or.inl rfl) rfl (by decide) rfl).2.1 (by decide) (by rfl)
  exact ⟨by rw [h.1]; rfl, h.2⟩

theorem setTCPFraming_ok {s fr : List Char} (h : setTCPFraming s = .ok fr) :
    fr = TraditionalTCPFraming ∨ fr = OctetCountedTCPFraming := by
  unfold setTCPFraming at h
  split at h
  · rename_i hc
    simp only [Except.ok.injEq] at h
    subst h
    exact Or.inl hc
  · split at h
    · rename_i hc
      simp only [Except.ok.injEq] at h
      subst h
      exact Or.inr hc
    · exact absurd h (by simp)

theorem framingResult_ok {cfg : BuildCfg} {fr : List Char} (h : framingResult cfg = .ok fr)
    (htcp : isTCPConnecion cfg.connKind = true) :
    fr = TraditionalTCPFraming ∨ fr = OctetCountedTCPFraming := by
  unfold framingResult at h
  rw [htcp] at h
  exact setTCPFraming_ok (by simpa using h)

theorem formatStep_ok {cfg : BuildCfg} {fr : List Char} {a : AdapterModel}
    (h : formatStep cfg fr = .ok a) : a.connKind = cfg.connKind ∧ a.tcpFraming = fr := by
  unfold formatStep at h
  split at h
  · split at h
    · exact absurd h (by simp)
    · simp only [Except.ok.injEq] at h
      subst h
      exact ⟨rfl, rfl⟩
  · split at h
    · split at h
      · exact absurd h (by simp)
      · simp only [Except.ok.injEq] at h
        subst h
        exact ⟨rfl, rfl⟩
    · exact absurd h (by simp)

theorem NewSyslogAdapter_ok {cfg : BuildCfg} {a : AdapterModel}
    (h : NewSyslogAdapter cfg = .ok a) :
    a.connKind = cfg.connKind ∧
    (isTCPConnecion cfg.connKind = true →
      a.tcpFraming = TraditionalTCPFraming ∨ a.tcpFraming = OctetCountedTCPFraming) := by
  unfold NewSyslogAdapter at h
  split at h
  · exact absurd h (by simp)
  · split at h
    · exact absurd h (by simp)
    · split at h
      · exact absurd h (by simp)
      · rename_i fr heq
        obtain ⟨hck, hfr⟩ := formatStep_ok h
        exact ⟨hck, fun htcp => hfr ▸ framingResult_ok heq htcp⟩

theorem frameFor_valid (kind : ConnKind) (framing : List Char) (buf : List Nat)
    (h : isTCPConnecion kind = true →
      framing = TraditionalTCPFraming ∨ framing = OctetCountedTCPFraming) :
    frameFor kind framing buf ≠ none := by
  unfold frameFor
  by_cases hk : isTCPConnecion kind = true
  · have hne : TraditionalTCPFraming ≠ OctetCountedTCPFraming := by decide
    rcases h hk with h1 | h1 <;> subst h1 <;> simp [hk, hne]
  · simp [hk]

theorem processRecord_no_fatalFraming (kind : ConnKind) (framing : List Char) (rc : Nat)
    (env : RecordEnv)
    (h : isTCPConnecion kind = true →
      framing = TraditionalTCPFraming ∨ framing = OctetCountedTCPFraming) :
    (processRecord kind framing rc env).1 ≠ .fatalFraming := by
  cases hr : env.render with
  | none => unfold processRecord; rw [hr]; simp
  | some buf =>
    cases hf : frameFor kind framing buf with
    | none => exact absurd hf (frameFor_valid kind framing buf h)
    | some fb =>
      unfold processRecord
      rw [hr]
      simp only [hf]
      cases hw : env.firstWrite with
      | none => simp [hw]
      | some e =>
        by_cases hu : kind = ConnKind.udp
        · simp [hw, hu]
        · cases hm : (retryModel ⟨env.inplace, env.dials, env.finalWrite⟩ rc e).1 <;>
            simp [hw, hu, hm]

theorem streamLoop_no_framingStop (kind : ConnKind) (framing : List Char) (rc : Nat)
    (h : isTCPConnecion kind = true →
      framing = TraditionalTCPFraming ∨ framing = OctetCountedTCPFraming) :
    ∀ (envs : List RecordEnv) (i j : Nat), streamLoop kind framing rc i envs ≠ .framingStop j := by
  intro envs
  induction envs with
  | nil => intro i j; simp [streamLoop]
  | cons env rest ih =>
    intro i j
    have hp := processRecord_no_fatalFraming kind framing rc env h
    cases hs : (processRecord kind framing rc env).1 with
    | fatalFraming => exact absurd hs hp
    | fatalRender => simp [streamLoop, hs]
    | fatalCrash e => simp [streamLoop, hs]
    | ok =>
      simp only [streamLoop, hs]
      exact ih (i + 1) j
    | dropped =>
      simp only [streamLoop, hs]
      exact ih (i + 1) j

/-- C7 (amended): with the transport known and the initial dial successful,
construction fails (no adapter is created) whenever the configured format
is neither `rfc5424` nor `rfc3164`; an unrecognized TCP framing mode makes
construction fail exactly when the dialled connection is stream-oriented
(on a datagram connection the framing value is never inspected and
construction can succeed); and for any successfully constructed adapter the
send-time framing panic is unreachable. -/
theorem C7_construction_config_errors (cfg : BuildCfg)
    (ht : cfg.transportFound = true) (hd : cfg.dialOk = true) :
    (cfg.format ≠ "rfc5424".data → cfg.format ≠ "rfc3164".data →
      ∃ msg, NewSyslogAdapter cfg = .error msg) ∧
    (isTCPConnecion cfg.connKind = true →
      cfg.framingEnv ≠ TraditionalTCPFraming → cfg.framingEnv ≠ OctetCountedTCPFraming →
      NewSyslogAdapter cfg =
        .error ("unknown SYSLOG_TCP_FRAMING value: ".data ++ cfg.framingEnv)) ∧
    (∀ a, NewSyslogAdapter cfg = .ok a → ∀ rc env,
      (processRecord a.connKind a.tcpFraming rc env).1 ≠ .fatalFraming) ∧
    (∀ a, NewSyslogAdapter cfg = .ok a → ∀ rc envs i j,
      streamLoop a.connKind a.tcpFraming rc i envs ≠ .framingStop j) := by
  have hmain : NewSyslogAdapter cfg =
      (match framingResult cfg with
        | .error err => .error err
        | .ok fr => formatStep cfg fr) := by
    unfold NewSyslogAdapter
    rw [if_neg (by simp [ht]), if_neg (by simp [hd])]
  refine ⟨?_, ?_, ?_, ?_⟩
  · intro h1 h2
    rw [hmain]
    cases hfr : framingResult cfg with
    | error err => exact ⟨err, by simp⟩
    | ok fr =>
      refine ⟨"unsupported syslog format: ".data ++ cfg.format, ?_⟩
      show formatStep cfg fr = _
      unfold formatStep
      rw [if_neg h1, if_neg h2]
  · intro htcp h1 h2
    rw [hmain]
    have hfr : framingResult cfg =
        .error ("unknown SYSLOG_TCP_FRAMING value: ".data ++ cfg.framingEnv) := by
      unfold framingResult
      rw [htcp]
      simp only [setTCPFraming, if_neg h1, if_neg h2]
      rfl
    rw [hfr]
  · intro a ha rc env
    have hok := NewSyslogAdapter_ok ha
    exact processRecord_no_fatalFraming a.connKind a.tcpFraming rc env
      (fun htcp => hok.2 (hok.1 ▸ htcp))
  · intro a ha rc envs i j
    have hok := NewSyslogAdapter_ok ha
    exact streamLoop_no_framingStop a.connKind a.tcpFraming rc
      (fun htcp => hok.2 (hok.1 ▸ htcp)) envs i j

/-- C7 counterexample: a route whose transport dials a UDP (datagram)
connection with `SYSLOG_TCP_FRAMING=bogus` — an unrecognized framing mode
— and a valid format still constructs an adapter successfully, so the
claim's "construction returns a ConfigError ... when the configured TCP
framing mode is neither traditional nor octet-counted" is false as stated
for every route. -/
theorem C7_construction_config_errors_counterexample :
    Except.isOk (NewSyslogAdapter ⟨true, true, .udp, "rfc5424".data, "bogus".data,
      defaultPriorityTmpl, defaultTimestampTmpl, defaultHostnameTmpl, tagTemplate [],
      defaultPidTmpl, [], defaultDataTmpl⟩) = true ∧
    "bogus".data ≠ TraditionalTCPFraming ∧ "bogus".data ≠ OctetCountedTCPFraming := by
  set_option maxRecDepth 8000 in
  exact ⟨by rfl, by decide, by decide⟩

/-- C7 witness: an unknown format fails construction, and an unknown
framing mode on a TCP connection fails construction with the
`setTCPFraming` error. -/
theorem C7_construction_config_errors_witness :
    Except.isOk (NewSyslogAdapter ⟨true, true, .tcp, "rfc9999".data, TraditionalTCPFraming,
      defaultPriorityTmpl, defaultTimestampTmpl, defaultHostnameTmpl, tagTemplate [],
      defaultPidTmpl, [], defaultDataTmpl⟩) = false ∧
    NewSyslogAdapter ⟨true, true, .tcp, "rfc5424".data, "bogus".data,
      defaultPriorityTmpl, defaultTimestampTmpl, defaultHostnameTmpl, tagTemplate [],
      defaultPidTmpl, [], defaultDataTmpl⟩ =
      .error ("unknown SYSLOG_TCP_FRAMING value: ".data ++ "bogus".data) := by
  constructor
  · obtain ⟨msg, hmsg⟩ := (C7_construction_config_errors
      ⟨true, true, .tcp, "rfc9999".data, TraditionalTCPFraming,
        defaultPriorityTmpl, defaultTimestampTmpl, defaultHostnameTmpl, tagTemplate [],
        defaultPidTmpl, [], defaultDataTmpl⟩ rfl rfl).1 (by decide) (by decide)
    rw [hmsg]
    rfl
  · exact (C7_construction_config_errors
      ⟨true, true, .tcp, "rfc5424".data, "bogus".data,
        defaultPriorityTmpl, defaultTimestampTmpl, defaultHostnameTmpl, tagTemplate [],
        defaultPidTmpl, [], defaultDataTmpl⟩ rfl rfl).2.1 (by decide) (by decide) (by decide)

theorem splitAction_noCbr : ∀ (body acc t : List Char),
    (∀ c ∈ body, c ≠ cbr) →
    splitAction acc (body ++ cbr :: cbr :: t) = some (acc.reverse ++ body, t) := by
  intro body
  induction body with
  | nil => intro acc t _; simp [splitAction]
  | cons c rest ih =>
    intro acc t h
    have hc : c ≠ cbr := h c (by simp)
    simp only [List.cons_append, splitAction, if_neg hc, List.append_eq]
    rw [ih (c :: acc) t (fun x hx => h x (by simp [hx]))]
    simp

theorem parseAux_noObr : ∀ (t : List Char) (fuel : Nat) (acc : List Char) (toks : List Tok),
    braceFree t → t.length ≤ fuel →
    parseAux fuel acc toks t = some (flushAcc toks (t.reverse ++ acc)) := by
  intro t
  induction t with
  | nil => intro fuel acc toks _ _; cases fuel <;> simp [parseAux]
  | cons c cs ih =>
    intro fuel acc toks h hlen
    obtain ⟨f, rfl⟩ : ∃ f, fuel = f + 1 := ⟨fuel - 1, by simp at hlen; omega⟩
    have hc : c ≠ obr := h c (by simp)
    simp only [parseAux, if_neg hc]
    rw [ih f (c :: acc) toks (fun x hx => h x (by simp [hx])) (by simp at hlen; omega)]
    congr 1
    simp

theorem parseAux_action (fuel : Nat) (acc : List Char) (toks : List Tok) (body rest : List Char)
    (hbody : ∀ c ∈ body, c ≠ cbr) :
    parseAux (fuel + 1) acc toks (obr :: obr :: (body ++ cbr :: cbr :: rest)) =
      parseAux fuel [] (flushAcc toks acc ++ [Tok.field body]) rest := by
  simp only [parseAux, if_pos rfl]
  rw [splitAction_noCbr body [] rest hbody]
  simp

theorem tagTemplate_trunc (t : List Char) :
    sprintfPrec 48 (tagTemplate t) = act ".ContainerName" ++ t.take 30 := by
  unfold sprintfPrec tagTemplate
  rw [List.take_append_eq_append_take]
  rfl

theorem parseTemplate_tagTemplate (s : List Char) (hs : braceFree s) :
    parseTemplate (act ".ContainerName" ++ s) =
      some (flushAcc [Tok.field ".ContainerName".data] s.reverse) := by
  have hshape : act ".ContainerName" ++ s =
      obr :: obr :: (".ContainerName".data ++ cbr :: cbr :: s) := by
    simp [act]
  unfold parseTemplate
  rw [hshape]
  have hlen : (obr :: obr :: (".ContainerName".data ++ cbr :: cbr :: s)).length =
      (s.length + 17) + 1 := by
    simp
  rw [hlen, parseAux_action (s.length + 17) [] [] ".ContainerName".data s (by decide)]
  have hflush : flushAcc ([] : List Tok) ([] : List Char) ++ [Tok.field ".ContainerName".data] =
      [Tok.field ".ContainerName".data] := by
    simp [flushAcc]
  rw [hflush, parseAux_noObr s (s.length + 17) [] [Tok.field ".ContainerName".data] hs (by omega)]
  simp

theorem execTok_lit (g : Globals) (m : SMessage) (s : List Char) :
    execTok g m (Tok.lit s) = some s := rfl

theorem execTok_containerName (g : Globals) (m : SMessage) :
    execTok g m (Tok.field ".ContainerName".data) = ContainerName m := by
  simp [execTok]

theorem execToks_nil (g : Globals) (m : SMessage) : execToks g m [] = some [] := rfl

theorem execToks_cons_some (g : Globals) (m : SMessage) (tk : Tok) (ts : List Tok)
    (a b : List Char) (h1 : execTok g m tk = some a) (h2 : execToks g m ts = some b) :
    execToks g m (tk :: ts) = some (a ++ b) := by
  unfold execToks
  rw [h1, h2]

theorem execToks_field_lit (g : Globals) (m : SMessage) (nm s : List Char)
    (hcn : ContainerName m = some nm) :
    execToks g m (flushAcc [Tok.field ".ContainerName".data] s.reverse) = some (nm ++ s) := by
  by_cases hs : s.reverse = []
  · have h0 : s = [] := by simpa using hs
    subst h0
    unfold flushAcc
    simp only [List.reverse_nil, if_true]
    have := execToks_cons_some g m (Tok.field ".ContainerName".data) [] nm []
      (by rw [execTok_containerName, hcn]) (execToks_nil g m)
    simpa using this
  · unfold flushAcc
    rw [if_neg hs, List.reverse_reverse]
    have hinner := execToks_cons_some g m (Tok.lit s) [] s []
      (execTok_lit g m s) (execToks_nil g m)
    have := execToks_cons_some g m (Tok.field ".ContainerName".data) [Tok.lit s] nm (s ++ [])
      (by rw [execTok_containerName, hcn]) hinner
    simpa using this

/-- C8 (amended): under the default `SYSLOG_TAG` template with a literal
(brace-free) `append_tag` suffix, the rendered tag equals the container
display name with its leading `/` separator stripped, followed by the
suffix truncated to the first 30 runes — the `%.48s` verb applied to the
18-rune-long tag template at construction cuts the suffix at 48 − 18 = 30
runes, so only a suffix of at most 30 runes survives in full. -/
theorem C8_rendered_tag (g : Globals) (m : SMessage) (t : List Char)
    (hb : braceFree t) (hn : m.container.name.head? = some '/') :
    renderedTag g m t = some (m.container.name.drop 1 ++ t.take 30) := by
  obtain ⟨nm, hnm⟩ : ∃ nm, m.container.name = '/' :: nm := by
    cases hcase : m.container.name with
    | nil => rw [hcase] at hn; exact absurd hn (by simp)
    | cons c tl =>
      rw [hcase] at hn
      simp only [List.head?] at hn
      exact ⟨tl, by rw [Option.some_injective _ hn]⟩
  have hcn : ContainerName m = some nm := by
    unfold ContainerName
    rw [hnm]
  have hdrop : m.container.name.drop 1 = nm := by rw [hnm]; rfl
  have hb30 : braceFree (t.take 30) := fun c hc => hb c (List.take_subset _ _ hc)
  unfold renderedTag renderTemplate
  rw [tagTemplate_trunc, parseTemplate_tagTemplate (t.take 30) hb30, hdrop]
  exact execToks_field_lit g m nm (t.take 30) hcn

/-- C8 counterexample: with a 31-character `append_tag` suffix the rendered
tag is NOT the stripped display name followed by the configured suffix —
the construction-time `%.48s` truncation of the tag template keeps only 30
of the 31 suffix characters. -/
theorem C8_rendered_tag_counterexample :
    renderedTag ⟨"g".data⟩
        ⟨"stdout".data, "t".data, "d".data, ⟨'/' :: "web-1".data, "h".data, 1⟩⟩
        (List.replicate 31 'x') ≠
      some (('/' :: "web-1".data).drop 1 ++ List.replicate 31 'x') ∧
    renderedTag ⟨"g".data⟩
        ⟨"stdout".data, "t".data, "d".data, ⟨'/' :: "web-1".data, "h".data, 1⟩⟩
        (List.replicate 31 'x') =
      some ("web-1".data ++ List.replicate 30 'x') := by
  constructor
  · set_option maxRecDepth 8000 in decide
  · set_option maxRecDepth 8000 in decide

/-- C8 witness: a record named `/web-1` with suffix `-prod` renders the tag
`web-1-prod`. -/
theorem C8_rendered_tag_witness :
    renderedTag ⟨"g".data⟩
        ⟨"stdout".data, "t".data, "d".data, ⟨'/' :: "web-1".data, "h".data, 1⟩⟩
        "-prod".data = some "web-1-prod".data := by
  have h := C8_rendered_tag ⟨"g".data⟩
    ⟨"stdout".data, "t".data, "d".data, ⟨'/' :: "web-1".data, "h".data, 1⟩⟩
    "-prod".data (by decide) (by decide)
  rw [h]
  decide

theorem parseTemplate_default5424 :
    parseTemplate defaultTmplStr5424 =
      some [Tok.lit "<".data, Tok.field ".Priority".data, Tok.lit ">1 ".data,
        Tok.field ".Timestamp".data, Tok.lit " ".data,
        Tok.field ".Container.Config.Hostname".data, Tok.lit " ".data,
        Tok.field ".ContainerName".data, Tok.lit " ".data,
        Tok.field ".Container.State.Pid".data, Tok.lit " - - ".data,
        Tok.field ".Data".data, Tok.lit "\n".data] := by
  set_option maxRecDepth 8000 in decide

theorem execTok_priority (g : Globals) (m : SMessage) :
    execTok g m (Tok.field ".Priority".data) = some (decChars (Priority m.source)) := by
  simp [execTok]

theorem execTok_timestamp (g : Globals) (m : SMessage) :
    execTok g m (Tok.field ".Timestamp".data) = some m.timeRFC3339 := by
  simp [execTok]

theorem execTok_configHostname (g : Globals) (m : SMessage) :
    execTok g m (Tok.field ".Container.Config.Hostname".data) =
      some m.container.configHostname := by
  simp [execTok]

theorem execTok_pid (g : Globals) (m : SMessage) :
    execTok g m (Tok.field ".Container.State.Pid".data) =
      some (decCharsInt m.container.statePid) := by
  simp [execTok]

theorem execTok_data (g : Globals) (m : SMessage) :
    execTok g m (Tok.field ".Data".data) = some m.data := by
  simp [execTok]

theorem renderDefault5424_formula (g : Globals) (m : SMessage)
    (hn : m.container.name ≠ []) :
    renderDefault5424 g m = some ("<".data ++ decChars (Priority m.source) ++ ">1 ".data ++
      m.timeRFC3339 ++ " ".data ++ m.container.configHostname ++ " ".data ++
      m.container.name.drop 1 ++ " ".data ++ decCharsInt m.container.statePid ++
      " - - ".data ++ m.data ++ "\n".data) := by
  obtain ⟨c, nm, hnm⟩ : ∃ c nm, m.container.name = c :: nm := by
    cases hcase : m.container.name with
    | nil => exact absurd hcase hn
    | cons c nm => exact ⟨c, nm, rfl⟩
  have hcn : ContainerName m = some nm := by
    unfold ContainerName
    rw [hnm]
  have hdrop : m.container.name.drop 1 = nm := by rw [hnm]; rfl
  rw [hdrop]
  unfold renderDefault5424 renderTemplate
  rw [parseTemplate_default5424]
  simp [execToks, execTok, hcn]

/-- C1 (amended): the `%.255s`/`%.48s`/`%.128s`/`%.32s` truncation is
applied at adapter construction to the configured TEMPLATE strings, in
runes (`sprintfPrec n` keeps the first `n` characters): the RFC 5424
template source only ever sees the first 255/48/128 runes of the
hostname/tag/pid template strings, the RFC 3164 source the first 32 runes
of the tag template string.  Per-record rendered values are inserted
without any truncation: under the default templates the full container
name, pid, payload, etc. appear verbatim in the output regardless of
length. -/
theorem C1_field_truncation (pri ts hn tag pid sd data : List Char) (g : Globals)
    (m : SMessage) :
    tmplStr5424 pri ts hn tag pid sd data =
      tmplStr5424 pri ts (sprintfPrec 255 hn) (sprintfPrec 48 tag) (sprintfPrec 128 pid)
        sd data ∧
    (sprintfPrec 255 hn).length ≤ 255 ∧
    (sprintfPrec 48 tag).length ≤ 48 ∧
    (sprintfPrec 128 pid).length ≤ 128 ∧
    tmplStr3164 pri ts hn tag pid data =
      tmplStr3164 pri ts hn (sprintfPrec 32 tag) pid data ∧
    (sprintfPrec 32 tag).length ≤ 32 ∧
    (m.container.name ≠ [] →
      renderDefault5424 g m = some ("<".data ++ decChars (Priority m.source) ++ ">1 ".data ++
        m.timeRFC3339 ++ " ".data ++ m.container.configHostname ++ " ".data ++
        m.container.name.drop 1 ++ " ".data ++ decCharsInt m.container.statePid ++
        " - - ".data ++ m.data ++ "\n".data)) := by
  refine ⟨?_, ?_, ?_, ?_, ?_, ?_, renderDefault5424_formula g m⟩
  · unfold tmplStr5424 sprintfPrec
    rw [List.take_take, List.take_take, List.take_take]
    simp
  · simp [sprintfPrec]
  · simp [sprintfPrec]
  · simp [sprintfPrec]
  · unfold tmplStr3164 sprintfPrec
    rw [List.take_take]
    simp
  · simp [sprintfPrec]

/-- C1 counterexample: under the default RFC 5424 configuration a record
whose container name has 61 bytes renders a tag field (the fourth
space-separated field of the output) of 60 bytes — well over the claimed
48-byte maximum — because the truncation applies to the template string,
not to the rendered value; and the truncation that does happen is
rune-based, not byte-based: `%.48s` applied to 49 copies of the two-byte
rune `é` keeps 48 runes = 96 bytes, exceeding 48 bytes. -/
theorem C1_field_truncation_counterexample :
    ((renderDefault5424 ⟨"g".data⟩
        ⟨"stdout".data, "T".data, "hello".data,
          ⟨'/' :: List.replicate 60 'a', "h1".data, 42⟩⟩).map
      (fun out => ((splitOnChar ' ' out).getD 3 []).length)) = some 60 ∧
    48 < 60 ∧
    (sprintfPrec 48 (List.replicate 49 'é')).length = 48 ∧
    utf8Len (sprintfPrec 48 (List.replicate 49 'é')) = 96 ∧ 48 < 96 := by
  refine ⟨?_, by decide, by decide, by decide, by decide⟩
  set_option maxRecDepth 8000 in decide

/-- C1 witness: the render formula instantiated on a concrete record. -/
theorem C1_field_truncation_witness :
    renderDefault5424 ⟨"g".data⟩
        ⟨"stdout".data, "2020-01-01T00:00:00Z".data, "hello".data,
          ⟨'/' :: "web-1".data, "h1".data, 42⟩⟩ =
      some "<14>1 2020-01-01T00:00:00Z h1 web-1 42 - - hello\n".data := by
  have h := (C1_field_truncation [] [] [] [] [] [] [] ⟨"g".data⟩
    ⟨"stdout".data, "2020-01-01T00:00:00Z".data, "hello".data,
      ⟨'/' :: "web-1".data, "h1".data, 42⟩⟩).2.2.2.2.2.2 (by decide)
  rw [h]
  set_option maxRecDepth 8000 in decide

end Logspout
